import Mathlib

/-!
Verification of the invoice mutation pipeline (`app/lib/actions.ts`, two
variants present in the repository: an earlier one and a later one).

The embedding models:
* JavaScript numbers as IEEE-754 binary64 values, represented exactly as a
  canonical mantissa/exponent pair, with correctly rounded conversion from
  decimal strings and correctly rounded multiplication;
* the Zod schemas of the two variants as per-field checking functions whose
  results are aggregated without short-circuiting (Zod object parsing
  collects the issues of every field);
* each server action as a pure function from an injected store outcome
  (does the SQL statement fail, and with which error text), the current
  clock and the form payload, to the action result (returned value, thrown
  error, or termination through the redirect control-flow signal) together
  with the ordered list of observable effects (successful writes, console
  logs, cache revalidation, navigation).
-/

deriving instance DecidableEq for Except

namespace Invoices

/-! ## Exact model of IEEE-754 binary64 arithmetic

A finite double is represented by an integer mantissa `m` and exponent `e`,
denoting the real number `m * 2 ^ e`; nonzero values are kept canonical with
`2^52 ≤ |m| < 2^53`, so the representation of each double is unique.  The
model covers the normal range (amply sufficient for the currency amounts in
scope); overflow to infinity and subnormal underflow are outside its domain. -/

/-- An unreduced fraction `num / den` with `den > 0` by construction.  Kept
unreduced so every arithmetic step is plain integer arithmetic. -/
structure Frac where
  num : Int
  den : Int
deriving DecidableEq

/-- Scale a positive fraction by powers of two until it lies in
`[2^52, 2^53)`, returning the scaled fraction and the exponent used.
Fuel-based structural recursion; 1200 steps cover every decimal numeral of
realistic size. -/
def norm52 : Nat → Frac → Int → Frac × Int
  | 0, q, e => (q, e)
  | fuel + 1, q, e =>
    if q.num < q.den * 2 ^ 52 then norm52 fuel ⟨q.num * 2, q.den⟩ (e - 1)
    else if q.den * 2 ^ 53 ≤ q.num then norm52 fuel ⟨q.num, q.den * 2⟩ (e + 1)
    else (q, e)

/-- Round a positive fraction to the nearest integer, ties to even. -/
def roundHalfEvenPos (q : Frac) : Int :=
  let n := q.num.ediv q.den
  let r := q.num.emod q.den
  if 2 * r < q.den then n
  else if q.den < 2 * r then n + 1
  else if n.emod 2 = 0 then n else n + 1

/-- A finite binary64 value `m * 2 ^ e` (canonical: `m = 0` or
`2^52 ≤ |m| < 2^53`). -/
structure Double where
  m : Int
  e : Int
deriving DecidableEq

def Double.zero : Double := ⟨0, 0⟩

/-- Round a positive fraction to the nearest binary64 value (round to
nearest, ties to even). -/
def roundPos (q : Frac) : Double :=
  let se := norm52 1200 q 0
  let m := roundHalfEvenPos se.1
  if m = 2 ^ 53 then ⟨2 ^ 52, se.2 + 1⟩ else ⟨m, se.2⟩

/-- Round a fraction to the nearest binary64 value. -/
def Frac.toDouble (q : Frac) : Double :=
  if q.num = 0 then Double.zero
  else if 0 < q.num then roundPos q
  else
    let d := roundPos ⟨-q.num, q.den⟩
    ⟨-d.m, d.e⟩

/-- The exact rational value of a double, as an unreduced fraction. -/
def Double.toFrac (d : Double) : Frac :=
  if 0 ≤ d.e then ⟨d.m * 2 ^ d.e.toNat, 1⟩ else ⟨d.m, 2 ^ (-d.e).toNat⟩

/-- The exact rational value of a double. -/
def Double.toRat (d : Double) : ℚ := (d.m : ℚ) * 2 ^ d.e

/-- IEEE-754 binary64 multiplication: the exact product, correctly rounded.
This is the semantics of the JavaScript `*` operator on finite doubles in
the normal range. -/
def jsMul (a b : Double) : Double :=
  let qa := a.toFrac
  let qb := b.toFrac
  Frac.toDouble ⟨qa.num * qb.num, qa.den * qb.den⟩

/-- The binary64 value of a natural number literal. -/
def Double.ofNat (n : Nat) : Double := Frac.toDouble ⟨n, 1⟩

/-- Whether a double denotes an integer: `m * 2 ^ e` is an integer iff
`e ≥ 0` or `2 ^ (-e)` divides `m`. -/
def Double.isIntegerValued (d : Double) : Bool :=
  if 0 ≤ d.e then true else d.m.emod (2 ^ (-d.e).toNat) = 0

/-! ## Model of the JavaScript `Number()` coercion on form values

`formData.get` yields a string or `null`; `Number(null)` is `0`, the empty
(or all-whitespace) string maps to `0`, and a plain decimal numeral with an
optional sign is parsed exactly and rounded to the nearest double.  Exotic
numeral forms (exponents, hex, `Infinity`) do not occur as UI form input and
are outside the model; they map to `none` (NaN). -/

def isDigitB (c : Char) : Bool := ('0' ≤ c) && (c ≤ '9')

def digVal (c : Char) : Nat := c.toNat - 48

def digitsVal (l : List Char) : Nat := l.foldl (fun a c => 10 * a + digVal c) 0

/-- Parse an unsigned decimal numeral (digits with at most one dot, at least
one digit overall) into an exact fraction. -/
def parseUnsignedDec (l : List Char) : Option Frac :=
  let ip := l.takeWhile isDigitB
  let rest := l.drop ip.length
  match rest with
  | [] => if ip.isEmpty then none else some ⟨digitsVal ip, 1⟩
  | c :: fr =>
    if c = '.' then
      if fr.all isDigitB && (!ip.isEmpty || !fr.isEmpty) then
        some ⟨digitsVal ip * 10 ^ fr.length + digitsVal fr, 10 ^ fr.length⟩
      else none
    else none

def isSpaceB (c : Char) : Bool := c = ' ' || c = '\t' || c = '\n' || c = '\r'

/-- Model of `Number(x)` for `x` a string or `null`; `none` models NaN. -/
def jsNumber : Option String → Option Double
  | none => some Double.zero
  | some s =>
    let l := ((s.toList.dropWhile isSpaceB).reverse.dropWhile isSpaceB).reverse
    match l with
    | [] => some Double.zero
    | c :: rest =>
      if c = '-' then (parseUnsignedDec rest).map fun q => Frac.toDouble ⟨-q.num, q.den⟩
      else if c = '+' then (parseUnsignedDec rest).map Frac.toDouble
      else (parseUnsignedDec l).map Frac.toDouble

/-! ## The mutation pipeline data model -/

/-- The raw form payload: `formData.get` on each of the three submitted
field names yields a string or `null` (modelled as `Option String`). -/
structure FormData where
  customerId : Option String
  amount : Option String
  status : Option String
deriving DecidableEq

/-- The Validated Record produced by a successful parse of the
create/update schema (`FormSchema` minus the generated `id` and `date`). -/
structure Validated where
  customerId : String
  amount : Double
  status : String
deriving DecidableEq

/-- The Field Error Map (`error.flatten().fieldErrors`): per-field lists of
messages.  A field with no errors carries `[]`, modelling the absent key. -/
structure FieldErrors where
  customerId : List String
  amount : List String
  status : List String
deriving DecidableEq

/-- The `State` object the later createInvoice returns to the form. -/
structure State where
  errors : Option FieldErrors
  message : Option String
deriving DecidableEq

/-- A stored invoice row (the columns this pipeline writes; the row id is
generated by the database on insert). -/
structure Row where
  customer_id : String
  amount : Double
  status : String
  date : String
deriving DecidableEq

/-- A successfully executed SQL write, as issued by the actions. -/
inductive WriteOp
  | insertRow (r : Row)
  | updateRow (id : String) (customer_id : String) (amount : Double) (status : String)
  | deleteRow (id : String)
deriving DecidableEq

/-- An error travelling through a JavaScript throw: either a ZodError
carrying the field issues, or the store client error with its raw text. -/
inductive ThrownError
  | zod (e : FieldErrors)
  | store (msg : String)
deriving DecidableEq

/-- Observable effects of one action invocation, in order: a successful
write, a `console.error` log, a `revalidatePath` cache invalidation, or the
navigation performed by `redirect`. -/
inductive Ev
  | write (w : WriteOp)
  | logged (e : ThrownError)
  | revalidate (path : String)
  | navigate (path : String)
deriving DecidableEq

/-- How one action invocation terminates: returning a `State` value,
returning `undefined`, propagating a thrown error, or being torn down by
the `redirect` control-flow signal. -/
inductive ActionResult
  | returned (s : State)
  | unitReturn
  | thrown (e : ThrownError)
  | navigated (path : String)
deriving DecidableEq

/-- True when the result is a returned value carrying a Field Error Map. -/
def ActionResult.isFieldErrorReturn : ActionResult → Bool
  | .returned s => s.errors.isSome
  | _ => false

/-- True when the result is a returned value (of any shape). -/
def ActionResult.isReturnedValue : ActionResult → Bool
  | .returned _ => true
  | .unitReturn => true
  | _ => false

/-- True when the invocation ended in the redirect control-flow signal. -/
def ActionResult.isNavigated : ActionResult → Bool
  | .navigated _ => true
  | _ => false

/-- The invoices table keyed by row id, plus rows inserted with a
database-generated id not visible to the caller. -/
structure Store where
  byId : String → Option Row
  inserted : List Row

/-- Effect of one successful write on the store.  `UPDATE ... WHERE id`
rewrites exactly the three SET columns of the matching row (a no-op when no
row matches); `DELETE ... WHERE id` removes the matching row (a no-op when
no row matches, which still counts as a successful statement). -/
def applyWrite (st : Store) : WriteOp → Store
  | .insertRow r => ⟨st.byId, st.inserted ++ [r]⟩
  | .updateRow id c a s =>
    ⟨fun k => if k = id then (st.byId k).map fun r => ⟨c, a, s, r.date⟩ else st.byId k,
      st.inserted⟩
  | .deleteRow id => ⟨fun k => if k = id then none else st.byId k, st.inserted⟩

/-- Replay the writes of an event trace against a store. -/
def applyEvents (st : Store) : List Ev → Store
  | [] => st
  | .write w :: evs => applyEvents (applyWrite st w) evs
  | .logged _ :: evs => applyEvents st evs
  | .revalidate _ :: evs => applyEvents st evs
  | .navigate _ :: evs => applyEvents st evs

/-- A signal consumed by the caching or navigation layer. -/
def isSignal : Ev → Bool
  | .revalidate _ => true
  | .navigate _ => true
  | _ => false

def hasNavigate (evs : List Ev) : Bool :=
  evs.any fun ev => match ev with | .navigate _ => true | _ => false

def hasRevalidate (evs : List Ev) : Bool :=
  evs.any fun ev => match ev with | .revalidate _ => true | _ => false

/-! ## Clock and the date stamp -/

/-- The components of the current instant, as observed by `new Date()` in
UTC. -/
structure Clock where
  year : Nat
  month : Nat
  day : Nat
  hour : Nat
  minute : Nat
  second : Nat
  milli : Nat
deriving DecidableEq

/-- The decimal digit character for `n % 10`. -/
def digitChar (n : Nat) : Char :=
  if n % 10 = 0 then '0' else if n % 10 = 1 then '1'
  else if n % 10 = 2 then '2' else if n % 10 = 3 then '3'
  else if n % 10 = 4 then '4' else if n % 10 = 5 then '5'
  else if n % 10 = 6 then '6' else if n % 10 = 7 then '7'
  else if n % 10 = 8 then '8' else '9'

def pad2 (n : Nat) : List Char := [digitChar (n / 10), digitChar n]

def pad3 (n : Nat) : List Char := [digitChar (n / 100), digitChar (n / 10), digitChar n]

def pad4 (n : Nat) : List Char :=
  [digitChar (n / 1000), digitChar (n / 100), digitChar (n / 10), digitChar n]

/-- Model of `Date.prototype.toISOString` for years 0 to 9999 (the only
years `new Date()` yields in this application's lifetime; outside that range
the real method switches to an expanded-year format not modelled here):
`YYYY-MM-DDTHH:mm:ss.sssZ`. -/
def toISOString (c : Clock) : String :=
  String.mk (pad4 c.year ++ '-' :: pad2 c.month ++ '-' :: pad2 c.day ++
    'T' :: pad2 c.hour ++ ':' :: pad2 c.minute ++ ':' :: pad2 c.second ++
    '.' :: pad3 c.milli ++ ['Z'])

/-- Model of `s.split(T)[0]`: the longest prefix before the first `T`. -/
def splitTHead (s : String) : String :=
  String.mk (s.toList.takeWhile fun c => c != 'T')

/-- Shape check for `YYYY-MM-DD`: exactly ten characters, digits except for hyphens at
positions 4 and 7 — in particular no time-of-day or timezone component. -/
def isYYYYMMDD (s : String) : Bool :=
  match s.toList with
  | [a, b, c, d, h1, e, f, h2, g, h] =>
    a.isDigit && b.isDigit && c.isDigit && d.isDigit && h1 == '-' &&
      e.isDigit && f.isDigit && h2 == '-' && g.isDigit && h.isDigit
  | _ => false

/-! ## Shared validation plumbing

Zod object parsing checks every field of the object and aggregates the
issues of all of them; `flatten().fieldErrors` then groups the messages by
field name.  `combineChecks` is that aggregation for the three submitted
fields: it never short-circuits. -/

def errsOf {α : Type} : Except (List String) α → List String
  | .error e => e
  | .ok _ => []

def isErrB {α : Type} : Except (List String) α → Bool
  | .error _ => true
  | .ok _ => false

def combineChecks (rc : Except (List String) String) (ra : Except (List String) Double)
    (rs : Except (List String) String) : Except FieldErrors Validated :=
  match rc, ra, rs with
  | .ok c, .ok a, .ok s => .ok ⟨c, a, s⟩
  | rc, ra, rs => .error ⟨errsOf rc, errsOf ra, errsOf rs⟩

/-- The route whose cache the actions invalidate and to which they
redirect. -/
def invoicesPath : String := "/dashboard/invoices"

/-! ## The later actions variant

`createInvoice` validates with `safeParse` (outside any try/catch) and
returns the Field Error Map on failure; its try/catch covers only the
INSERT and rethrows after logging.  `updateInvoice` still validates with the
throwing `parse` inside the same try/catch as the UPDATE and rethrows.
`deleteInvoice` revalidates inside the try after the DELETE and rethrows on
failure.  Success-path `revalidatePath` and `redirect` of create/update sit
after the try/catch.

Each action takes the outcome of its SQL statement as `dbErr` (`none` when
the statement succeeds, `some msg` when the store client throws an error
with text `msg`). -/
namespace LaterActions

/-- Model of `customerId: z.string(...)` with a custom invalid-type message; `null`
is an invalid type, any string (even empty) passes. -/
def checkCustomerId : Option String → Except (List String) String
  | none => .error ["Please select a customer."]
  | some s => .ok s

/-- Model of `amount: z.coerce.number().gt(0, ...)`: coerce with `Number()`, NaN is
an invalid type, then require strictly positive. -/
def checkAmount (v : Option String) : Except (List String) Double :=
  match jsNumber v with
  | none => .error ["Expected number, received nan"]
  | some d => if 0 < d.m then .ok d else .error ["Please enter an amount greater than $0."]

/-- Model of `status: z.enum([pending, paid], ...)` with a custom invalid-type
message for `null`; a string outside the enumeration gets the default
invalid-enum-value message (paraphrased here). -/
def checkStatus : Option String → Except (List String) String
  | none => .error ["Please select an invoice status."]
  | some s =>
    if s = "pending" || s = "paid" then .ok s
    else .error ["Invalid enum value. Expected pending or paid, received " ++ s]

/-- Model of `CreateInvoice.safeParse` (the `UpdateInvoice` schema is identical):
aggregate all three field checks. -/
def safeParse (f : FormData) : Except FieldErrors Validated :=
  combineChecks (checkCustomerId f.customerId) (checkAmount f.amount)
    (checkStatus f.status)

def createInvoice (dbErr : Option String) (now : Clock) (f : FormData) :
    ActionResult × List Ev :=
  match safeParse f with
  | .error e =>
    (.returned ⟨some e, some "Missing Fields. Failed to Create Invoice."⟩, [])
  | .ok v =>
    let amountInCents := jsMul v.amount (Double.ofNat 100)
    let date := splitTHead (toISOString now)
    match dbErr with
    | some msg => (.thrown (.store msg), [.logged (.store msg)])
    | none =>
      (.navigated invoicesPath,
        [.write (.insertRow ⟨v.customerId, amountInCents, v.status, date⟩),
          .revalidate invoicesPath, .navigate invoicesPath])

def updateInvoice (dbErr : Option String) (id : String) (f : FormData) :
    ActionResult × List Ev :=
  match safeParse f with
  | .error e => (.thrown (.zod e), [.logged (.zod e)])
  | .ok v =>
    let amountInCents := jsMul v.amount (Double.ofNat 100)
    match dbErr with
    | some msg => (.thrown (.store msg), [.logged (.store msg)])
    | none =>
      (.navigated invoicesPath,
        [.write (.updateRow id v.customerId amountInCents v.status),
          .revalidate invoicesPath, .navigate invoicesPath])

def deleteInvoice (dbErr : Option String) (id : String) : ActionResult × List Ev :=
  match dbErr with
  | some msg => (.thrown (.store msg), [.logged (.store msg)])
  | none => (.unitReturn, [.write (.deleteRow id), .revalidate invoicesPath])

end LaterActions

/-! ## The earlier actions variant

All three actions run everything — validation (throwing `parse`),
transformation and the SQL statement — inside one try/catch whose catch
logs the caught error and returns a single generic message, so a validation
failure and a store failure produce the same returned value.  The schema
carries no custom messages and no bound on `amount`. -/
namespace EarlierActions

/-- Model of `customerId: z.string()`: `null` is an invalid type. -/
def checkCustomerId : Option String → Except (List String) String
  | none => .error ["Expected string, received null"]
  | some s => .ok s

/-- Model of `amount: z.coerce.number()`: only NaN fails; any number (zero or
negative included) passes. -/
def checkAmount (v : Option String) : Except (List String) Double :=
  match jsNumber v with
  | none => .error ["Expected number, received nan"]
  | some d => .ok d

/-- Model of `status: z.enum([pending, paid])` with default messages. -/
def checkStatus : Option String → Except (List String) String
  | none => .error ["Expected pending or paid, received null"]
  | some s =>
    if s = "pending" || s = "paid" then .ok s
    else .error ["Invalid enum value. Expected pending or paid, received " ++ s]

/-- Model of `CreateInvoice.parse` / `UpdateInvoice.parse`: same aggregation, but the
caller observes a thrown ZodError instead of a returned error value. -/
def parseForm (f : FormData) : Except FieldErrors Validated :=
  combineChecks (checkCustomerId f.customerId) (checkAmount f.amount)
    (checkStatus f.status)

def createInvoice (dbErr : Option String) (now : Clock) (f : FormData) :
    ActionResult × List Ev :=
  match parseForm f with
  | .error e =>
    (.returned ⟨none, some "Database Error: Failed to Create Invoice."⟩,
      [.logged (.zod e)])
  | .ok v =>
    let amountInCents := jsMul v.amount (Double.ofNat 100)
    let date := splitTHead (toISOString now)
    match dbErr with
    | some msg =>
      (.returned ⟨none, some "Database Error: Failed to Create Invoice."⟩,
        [.logged (.store msg)])
    | none =>
      (.navigated invoicesPath,
        [.write (.insertRow ⟨v.customerId, amountInCents, v.status, date⟩),
          .revalidate invoicesPath, .navigate invoicesPath])

def updateInvoice (dbErr : Option String) (id : String) (f : FormData) :
    ActionResult × List Ev :=
  match parseForm f with
  | .error e =>
    (.returned ⟨none, some "Database Error: Failed to Update Invoice."⟩,
      [.logged (.zod e)])
  | .ok v =>
    let amountInCents := jsMul v.amount (Double.ofNat 100)
    match dbErr with
    | some msg =>
      (.returned ⟨none, some "Database Error: Failed to Update Invoice."⟩,
        [.logged (.store msg)])
    | none =>
      (.navigated invoicesPath,
        [.write (.updateRow id v.customerId amountInCents v.status),
          .revalidate invoicesPath, .navigate invoicesPath])

def deleteInvoice (dbErr : Option String) (id : String) : ActionResult × List Ev :=
  match dbErr with
  | some msg =>
    (.returned ⟨none, some "Database Error: Failed to Delete Invoice."⟩,
      [.logged (.store msg)])
  | none =>
    (.returned ⟨none, some "Invoice deleted successfully."⟩,
      [.write (.deleteRow id), .revalidate invoicesPath])

end EarlierActions

/-! ## Concrete inputs used by witnesses and counterexamples -/

/-- A healthy submission: Scenario C of the spec. -/
def f4999 : FormData := ⟨some "c1", some "49.99", some "paid"⟩

/-- A submission with two simultaneously invalid fields under the later
schema: missing customer and a zero amount. -/
def badForm : FormData := ⟨none, some "0", some "paid"⟩

/-- A valid submission whose amount times 100 is not an integer double. -/
def f115 : FormData := ⟨some "c1", some "1.15", some "paid"⟩

/-- A fixed instant: 2026-01-02T03:04:05.006Z. -/
def clock0 : Clock := ⟨2026, 1, 2, 3, 4, 5, 6⟩

/-- The binary64 value of `Number("49.99") * 100`, which is exactly 4999. -/
def d4999 : Double := ⟨5496458627252224, -40⟩

/-- The binary64 value of `Number("1.15") * 100`, which is the double just
below 115 (printed 114.99999999999999). -/
def d11499 : Double := ⟨8092405580431359, -46⟩

/-- A store with no rows at all. -/
def emptyStore : Store := ⟨fun _ => none, []⟩

/-! ## Helper lemmas -/

theorem digitChar_bne_T (n : Nat) : (digitChar n != 'T') = true := by
  unfold digitChar; split_ifs <;> rfl

theorem digitChar_isDigit (n : Nat) : (digitChar n).isDigit = true := by
  unfold digitChar; split_ifs <;> rfl

/-- Splitting the ISO timestamp at its `T` keeps exactly the date digits:
everything from the hours on is discarded. -/
theorem splitTHead_toISOString (c : Clock) :
    splitTHead (toISOString c) =
      String.mk (pad4 c.year ++ '-' :: pad2 c.month ++ '-' :: pad2 c.day) := by
  simp [splitTHead, toISOString, pad4, pad2, pad3, String.toList,
    List.takeWhile_cons, digitChar_bne_T]

/-- The date stamp the create path stores always has the `YYYY-MM-DD`
shape. -/
theorem isYYYYMMDD_stamp (c : Clock) :
    isYYYYMMDD (splitTHead (toISOString c)) = true := by
  rw [splitTHead_toISOString]
  simp [isYYYYMMDD, pad4, pad2, String.toList, digitChar_isDigit]

theorem checkCustomerId_error_nonempty {x : Option String} {l : List String}
    (h : LaterActions.checkCustomerId x = .error l) : l ≠ [] := by
  cases x <;> simp [LaterActions.checkCustomerId] at h <;> simp [h.symm]

theorem checkAmount_error_nonempty {x : Option String} {l : List String}
    (h : LaterActions.checkAmount x = .error l) : l ≠ [] := by
  unfold LaterActions.checkAmount at h
  cases hj : jsNumber x with
  | none => rw [hj] at h; exact by simp at h; simp [h.symm]
  | some d =>
    rw [hj] at h
    by_cases hd : 0 < d.m <;> simp [hd] at h <;> simp [h.symm]

theorem checkStatus_error_nonempty {x : Option String} {l : List String}
    (h : LaterActions.checkStatus x = .error l) : l ≠ [] := by
  cases x with
  | none => simp [LaterActions.checkStatus] at h; simp [h.symm]
  | some s =>
    unfold LaterActions.checkStatus at h
    by_cases hs : s = "pending" || s = "paid" <;> simp [hs] at h <;> simp [h.symm]

/-- Number of invalid fields of a submission under the later schema. -/
def invalidFieldCount (f : FormData) : Nat :=
  (if isErrB (LaterActions.checkCustomerId f.customerId) then 1 else 0) +
    (if isErrB (LaterActions.checkAmount f.amount) then 1 else 0) +
    (if isErrB (LaterActions.checkStatus f.status) then 1 else 0)

/-! ## The claims -/

/-- C1 (counterexample).  The claim asserts that `updateInvoice` too returns
a Field Error Map covering every invalid field.  On the submission with two
simultaneously invalid fields (missing customer, zero amount) the later
`updateInvoice` returns nothing at all: its throwing `parse` sits inside the
same try/catch as the UPDATE, so the ZodError is logged and rethrown. -/
theorem c1_counterexample :
    (LaterActions.updateInvoice none "a1" badForm).1.isFieldErrorReturn = false ∧
    (LaterActions.updateInvoice none "a1" badForm).1.isReturnedValue = false ∧
    (LaterActions.updateInvoice none "a1" badForm).1 =
      .thrown (.zod ⟨["Please select a customer."],
        ["Please enter an amount greater than $0."], []⟩) := by
  decide

/-- C1 (amended): for every submission with two or more simultaneously
invalid fields, the later `createInvoice` (the only mutation that returns a
Field Error Map; `updateInvoice` instead rethrows its ZodError) returns a
Field Error Map with a non-empty entry for every invalid field — validation
does not short-circuit on the first failure. -/
theorem c1_amended (dbErr : Option String) (now : Clock) (f : FormData)
    (h2 : 2 ≤ invalidFieldCount f) :
    ∃ e : FieldErrors,
      LaterActions.createInvoice dbErr now f =
        (.returned ⟨some e, some "Missing Fields. Failed to Create Invoice."⟩, []) ∧
      (isErrB (LaterActions.checkCustomerId f.customerId) = true → e.customerId ≠ []) ∧
      (isErrB (LaterActions.checkAmount f.amount) = true → e.amount ≠ []) ∧
      (isErrB (LaterActions.checkStatus f.status) = true → e.status ≠ []) := by
  unfold invalidFieldCount at h2
  cases hc : LaterActions.checkCustomerId f.customerId with
  | ok c =>
    cases ha : LaterActions.checkAmount f.amount with
    | ok a =>
      simp [hc, ha, isErrB] at h2
      cases hs : LaterActions.checkStatus f.status <;> simp [hc, ha, hs, isErrB] at h2
    | error la =>
      cases hs : LaterActions.checkStatus f.status with
      | ok s => simp [hc, ha, hs, isErrB] at h2
      | error ls =>
        refine ⟨⟨[], la, ls⟩, ?_, ?_, ?_, ?_⟩
        · simp [LaterActions.createInvoice, LaterActions.safeParse, combineChecks,
            hc, ha, hs, errsOf]
        · simp [hc, isErrB]
        · exact fun _ => checkAmount_error_nonempty ha
        · exact fun _ => checkStatus_error_nonempty hs
  | error lc =>
    cases ha : LaterActions.checkAmount f.amount with
    | ok a =>
      cases hs : LaterActions.checkStatus f.status with
      | ok s => simp [hc, ha, hs, isErrB] at h2
      | error ls =>
        refine ⟨⟨lc, [], ls⟩, ?_, ?_, ?_, ?_⟩
        · simp [LaterActions.createInvoice, LaterActions.safeParse, combineChecks,
            hc, ha, hs, errsOf]
        · exact fun _ => checkCustomerId_error_nonempty hc
        · simp [ha, isErrB]
        · exact fun _ => checkStatus_error_nonempty hs
    | error la =>
      cases hs : LaterActions.checkStatus f.status with
      | ok s =>
        refine ⟨⟨lc, la, []⟩, ?_, ?_, ?_, ?_⟩
        · simp [LaterActions.createInvoice, LaterActions.safeParse, combineChecks,
            hc, ha, hs, errsOf]
        · exact fun _ => checkCustomerId_error_nonempty hc
        · exact fun _ => checkAmount_error_nonempty ha
        · simp [hs, isErrB]
      | error ls =>
        refine ⟨⟨lc, la, ls⟩, ?_, ?_, ?_, ?_⟩
        · simp [LaterActions.createInvoice, LaterActions.safeParse, combineChecks,
            hc, ha, hs, errsOf]
        · exact fun _ => checkCustomerId_error_nonempty hc
        · exact fun _ => checkAmount_error_nonempty ha
        · exact fun _ => checkStatus_error_nonempty hs

/-- C1 (witness): the amended theorem applied to the concrete two-invalid
submission. -/
theorem c1_witness :
    ∃ e : FieldErrors,
      LaterActions.createInvoice none clock0 badForm =
        (.returned ⟨some e, some "Missing Fields. Failed to Create Invoice."⟩, []) ∧
      (isErrB (LaterActions.checkCustomerId badForm.customerId) = true → e.customerId ≠ []) ∧
      (isErrB (LaterActions.checkAmount badForm.amount) = true → e.amount ≠ []) ∧
      (isErrB (LaterActions.checkStatus badForm.status) = true → e.status ≠ []) :=
  c1_amended none clock0 badForm (by decide)

/-- C5: whenever validation fails, the later `createInvoice` returns the
Field Error Map state and produces no effect at all — in particular no
write reaches the store, which is left unchanged; the transformer and the
persistence coordinator never run. -/
theorem c5_validation_halts_pipeline (dbErr : Option String) (now : Clock)
    (f : FormData) (e : FieldErrors) (h : LaterActions.safeParse f = .error e) :
    LaterActions.createInvoice dbErr now f =
      (.returned ⟨some e, some "Missing Fields. Failed to Create Invoice."⟩, []) ∧
    (∀ st : Store, applyEvents st (LaterActions.createInvoice dbErr now f).2 = st) := by
  constructor
  · simp [LaterActions.createInvoice, h]
  · intro st
    simp [LaterActions.createInvoice, h, applyEvents]

/-- C5 (witness): the theorem applied to the concrete invalid submission. -/
theorem c5_witness :
    LaterActions.createInvoice none clock0 badForm =
      (.returned ⟨some ⟨["Please select a customer."],
        ["Please enter an amount greater than $0."], []⟩,
        some "Missing Fields. Failed to Create Invoice."⟩, []) ∧
    (∀ st : Store, applyEvents st (LaterActions.createInvoice none clock0 badForm).2 = st) :=
  c5_validation_halts_pipeline none clock0 badForm _ (by decide)

/-- C8: on a successful delete, both variants fire the cache invalidation
for the invoices collection and issue no navigation signal — the result is
a plain return, never the redirect control-flow signal, unlike the success
path of create and update. -/
theorem c8_delete_no_navigation (id : String) :
    LaterActions.deleteInvoice none id =
      (.unitReturn, [.write (.deleteRow id), .revalidate invoicesPath]) ∧
    EarlierActions.deleteInvoice none id =
      (.returned ⟨none, some "Invoice deleted successfully."⟩,
        [.write (.deleteRow id), .revalidate invoicesPath]) ∧
    hasRevalidate (LaterActions.deleteInvoice none id).2 = true ∧
    hasRevalidate (EarlierActions.deleteInvoice none id).2 = true ∧
    hasNavigate (LaterActions.deleteInvoice none id).2 = false ∧
    hasNavigate (EarlierActions.deleteInvoice none id).2 = false ∧
    (LaterActions.deleteInvoice none id).1.isNavigated = false ∧
    (EarlierActions.deleteInvoice none id).1.isNavigated = false := by
  simp [LaterActions.deleteInvoice, EarlierActions.deleteInvoice,
    hasRevalidate, hasNavigate, ActionResult.isNavigated]

/-- C9: when the amount field is absent from the submission, `Number(null)`
coerces it to the double 0, the `gt(0)` bound fails with its custom
message, and the later `createInvoice` rejects the submission with exactly
that message on the amount field — there is no distinct required-field
error. -/
theorem c9_missing_amount (dbErr : Option String) (now : Clock) (f : FormData)
    (h : f.amount = none) :
    jsNumber f.amount = some Double.zero ∧
    ∃ e : FieldErrors,
      LaterActions.createInvoice dbErr now f =
        (.returned ⟨some e, some "Missing Fields. Failed to Create Invoice."⟩, []) ∧
      e.amount = ["Please enter an amount greater than $0."] := by
  have ha : LaterActions.checkAmount f.amount =
      .error ["Please enter an amount greater than $0."] := by
    rw [h]; rfl
  refine ⟨by rw [h]; rfl, ?_⟩
  cases hc : LaterActions.checkCustomerId f.customerId with
  | ok c =>
    cases hs : LaterActions.checkStatus f.status with
    | ok s =>
      exact ⟨⟨[], _, []⟩, by
        simp [LaterActions.createInvoice, LaterActions.safeParse, combineChecks,
          hc, ha, hs, errsOf], rfl⟩
    | error ls =>
      exact ⟨⟨[], _, ls⟩, by
        simp [LaterActions.createInvoice, LaterActions.safeParse, combineChecks,
          hc, ha, hs, errsOf], rfl⟩
  | error lc =>
    cases hs : LaterActions.checkStatus f.status with
    | ok s =>
      exact ⟨⟨lc, _, []⟩, by
        simp [LaterActions.createInvoice, LaterActions.safeParse, combineChecks,
          hc, ha, hs, errsOf], rfl⟩
    | error ls =>
      exact ⟨⟨lc, _, ls⟩, by
        simp [LaterActions.createInvoice, LaterActions.safeParse, combineChecks,
          hc, ha, hs, errsOf], rfl⟩

/-- C9 (witness): the theorem applied to a submission whose amount field is
absent. -/
theorem c9_witness :
    jsNumber (FormData.amount ⟨some "c1", none, some "paid"⟩) = some Double.zero ∧
    ∃ e : FieldErrors,
      LaterActions.createInvoice none clock0 ⟨some "c1", none, some "paid"⟩ =
        (.returned ⟨some e, some "Missing Fields. Failed to Create Invoice."⟩, []) ∧
      e.amount = ["Please enter an amount greater than $0."] :=
  c9_missing_amount none clock0 ⟨some "c1", none, some "paid"⟩ rfl

/-- C10: in the earlier variant, validation runs inside the same try/catch
as the INSERT, so every invalid submission yields the same returned value
as a store failure on a valid submission: the single generic message with
no Field Error Map — the two failure kinds are indistinguishable to the
caller. -/
theorem c10_early_variant_conflation (dbErr : Option String) (now now2 : Clock)
    (f g : FormData) (e : String) (ef : FieldErrors) (v : Validated)
    (hf : EarlierActions.parseForm f = .error ef)
    (hg : EarlierActions.parseForm g = .ok v) :
    (EarlierActions.createInvoice dbErr now f).1 =
      .returned ⟨none, some "Database Error: Failed to Create Invoice."⟩ ∧
    (EarlierActions.createInvoice (some e) now2 g).1 =
      .returned ⟨none, some "Database Error: Failed to Create Invoice."⟩ ∧
    (EarlierActions.createInvoice dbErr now f).1 =
      (EarlierActions.createInvoice (some e) now2 g).1 ∧
    (EarlierActions.createInvoice dbErr now f).1.isFieldErrorReturn = false := by
  refine ⟨?_, ?_, ?_, ?_⟩ <;>
    simp [EarlierActions.createInvoice, hf, hg, ActionResult.isFieldErrorReturn]

/-- C10 (witness): the theorem applied to the concrete invalid submission
(missing customer) against the valid Scenario C submission with a failing
store. -/
theorem c10_witness :
    (EarlierActions.createInvoice none clock0 badForm).1 =
      .returned ⟨none, some "Database Error: Failed to Create Invoice."⟩ ∧
    (EarlierActions.createInvoice (some "boom") clock0 f4999).1 =
      .returned ⟨none, some "Database Error: Failed to Create Invoice."⟩ ∧
    (EarlierActions.createInvoice none clock0 badForm).1 =
      (EarlierActions.createInvoice (some "boom") clock0 f4999).1 ∧
    (EarlierActions.createInvoice none clock0 badForm).1.isFieldErrorReturn = false :=
  c10_early_variant_conflation none clock0 clock0 badForm f4999 "boom"
    ⟨["Expected string, received null"], [], []⟩ ⟨"c1", ⟨7035467042882847, -47⟩, "paid"⟩
    (by decide) (by decide)

/-- C4: in both variants of `createInvoice` and `updateInvoice`, the
cache-invalidation and navigation signals are outside and after the scope
that catches write failures: on any store failure no signal is emitted and
the invocation does not end in the redirect control-flow signal, and on a
successful write the trace is exactly the write followed by the
revalidation and then the navigation. -/
theorem c4_signals_after_write (e : String) (now : Clock) (fid : String) (f : FormData) :
    ((LaterActions.createInvoice (some e) now f).2.all fun ev => !(isSignal ev)) = true ∧
    ((LaterActions.updateInvoice (some e) fid f).2.all fun ev => !(isSignal ev)) = true ∧
    ((EarlierActions.createInvoice (some e) now f).2.all fun ev => !(isSignal ev)) = true ∧
    ((EarlierActions.updateInvoice (some e) fid f).2.all fun ev => !(isSignal ev)) = true ∧
    (LaterActions.createInvoice (some e) now f).1.isNavigated = false ∧
    (LaterActions.updateInvoice (some e) fid f).1.isNavigated = false ∧
    (EarlierActions.createInvoice (some e) now f).1.isNavigated = false ∧
    (EarlierActions.updateInvoice (some e) fid f).1.isNavigated = false ∧
    (∀ v : Validated, LaterActions.safeParse f = .ok v →
      (LaterActions.createInvoice none now f).2 =
        [.write (.insertRow ⟨v.customerId, jsMul v.amount (Double.ofNat 100), v.status,
          splitTHead (toISOString now)⟩), .revalidate invoicesPath, .navigate invoicesPath] ∧
      (LaterActions.updateInvoice none fid f).2 =
        [.write (.updateRow fid v.customerId (jsMul v.amount (Double.ofNat 100)) v.status),
          .revalidate invoicesPath, .navigate invoicesPath]) ∧
    (∀ v : Validated, EarlierActions.parseForm f = .ok v →
      (EarlierActions.createInvoice none now f).2 =
        [.write (.insertRow ⟨v.customerId, jsMul v.amount (Double.ofNat 100), v.status,
          splitTHead (toISOString now)⟩), .revalidate invoicesPath, .navigate invoicesPath] ∧
      (EarlierActions.updateInvoice none fid f).2 =
        [.write (.updateRow fid v.customerId (jsMul v.amount (Double.ofNat 100)) v.status),
          .revalidate invoicesPath, .navigate invoicesPath]) := by
  refine ⟨?_, ?_, ?_, ?_, ?_, ?_, ?_, ?_, ?_, ?_⟩
  · cases h : LaterActions.safeParse f <;>
      simp [LaterActions.createInvoice, h, isSignal]
  · cases h : LaterActions.safeParse f <;>
      simp [LaterActions.updateInvoice, h, isSignal]
  · cases h : EarlierActions.parseForm f <;>
      simp [EarlierActions.createInvoice, h, isSignal]
  · cases h : EarlierActions.parseForm f <;>
      simp [EarlierActions.updateInvoice, h, isSignal]
  · cases h : LaterActions.safeParse f <;>
      simp [LaterActions.createInvoice, h, ActionResult.isNavigated]
  · cases h : LaterActions.safeParse f <;>
      simp [LaterActions.updateInvoice, h, ActionResult.isNavigated]
  · cases h : EarlierActions.parseForm f <;>
      simp [EarlierActions.createInvoice, h, ActionResult.isNavigated]
  · cases h : EarlierActions.parseForm f <;>
      simp [EarlierActions.updateInvoice, h, ActionResult.isNavigated]
  · intro v hv
    exact ⟨by simp [LaterActions.createInvoice, hv],
      by simp [LaterActions.updateInvoice, hv]⟩
  · intro v hv
    exact ⟨by simp [EarlierActions.createInvoice, hv],
      by simp [EarlierActions.updateInvoice, hv]⟩

/-- C4 (witness): the theorem applied at a concrete failing store error and
the concrete valid Scenario C submission. -/
theorem c4_witness :
    ((LaterActions.createInvoice (some "boom") clock0 f4999).2.all
      fun ev => !(isSignal ev)) = true ∧
    (LaterActions.createInvoice none clock0 f4999).2 =
      [.write (.insertRow ⟨"c1", jsMul (Double.mk 7035467042882847 (-47)) (Double.ofNat 100),
        "paid", splitTHead (toISOString clock0)⟩),
        .revalidate invoicesPath, .navigate invoicesPath] ∧
    (EarlierActions.updateInvoice none "a1" f4999).2 =
      [.write (.updateRow "a1" "c1"
        (jsMul (Double.mk 7035467042882847 (-47)) (Double.ofNat 100)) "paid"),
        .revalidate invoicesPath, .navigate invoicesPath] := by
  have h := c4_signals_after_write "boom" clock0 "a1" f4999
  have hl := (h.2.2.2.2.2.2.2.2.1 ⟨"c1", ⟨7035467042882847, -47⟩, "paid"⟩ (by decide)).1
  have he := (h.2.2.2.2.2.2.2.2.2 ⟨"c1", ⟨7035467042882847, -47⟩, "paid"⟩ (by decide)).2
  exact ⟨h.1, hl, he⟩

/-- C3 (counterexample).  The claim asserts every store failure surfaces as
a returned InfrastructureFailure with a fixed generic message.  In the
later variant the catch block logs and rethrows, so the raw store error —
its text intact — propagates out of the action instead of any returned
generic message. -/
theorem c3_counterexample :
    (LaterActions.createInvoice (some "connection refused by db host") clock0 f4999).1 =
      .thrown (.store "connection refused by db host") ∧
    (LaterActions.createInvoice (some "connection refused by db host") clock0
      f4999).1.isReturnedValue = false := by
  decide

/-- C3 (amended): in the earlier variant only, every store failure is
caught and surfaced as a returned value whose message is the fixed,
operation-named generic string — the same constant for every store error,
so no underlying error text reaches the caller — while the raw error goes
only to the log.  The later variant instead logs and rethrows the raw
store error to the framework error boundary. -/
theorem c3_early_generic_message (e : String) (now : Clock) (id : String)
    (f : FormData) (v : Validated) (hv : EarlierActions.parseForm f = .ok v) :
    EarlierActions.createInvoice (some e) now f =
      (.returned ⟨none, some "Database Error: Failed to Create Invoice."⟩,
        [.logged (.store e)]) ∧
    EarlierActions.updateInvoice (some e) id f =
      (.returned ⟨none, some "Database Error: Failed to Update Invoice."⟩,
        [.logged (.store e)]) ∧
    EarlierActions.deleteInvoice (some e) id =
      (.returned ⟨none, some "Database Error: Failed to Delete Invoice."⟩,
        [.logged (.store e)]) := by
  refine ⟨?_, ?_, rfl⟩ <;>
    simp [EarlierActions.createInvoice, EarlierActions.updateInvoice, hv]

/-- C3 (witness): the amended theorem applied at a concrete store error and
the concrete valid Scenario C submission. -/
theorem c3_witness :
    EarlierActions.createInvoice (some "boom") clock0 f4999 =
      (.returned ⟨none, some "Database Error: Failed to Create Invoice."⟩,
        [.logged (.store "boom")]) ∧
    EarlierActions.updateInvoice (some "boom") "a1" f4999 =
      (.returned ⟨none, some "Database Error: Failed to Update Invoice."⟩,
        [.logged (.store "boom")]) ∧
    EarlierActions.deleteInvoice (some "boom") "a1" =
      (.returned ⟨none, some "Database Error: Failed to Delete Invoice."⟩,
        [.logged (.store "boom")]) :=
  c3_early_generic_message "boom" clock0 "a1" f4999
    ⟨"c1", ⟨7035467042882847, -47⟩, "paid"⟩ (by decide)

/-- C7 (counterexample).  The claim asserts a delete of a non-existent
identifier yields a Not-Found outcome distinct from Success.  Deleting the
absent id `ghost` from the empty store leaves the store untouched yet
produces exactly the same successful outcome as any delete: the earlier
variant returns its success message, the later variant returns undefined;
no Not-Found outcome exists in either. -/
theorem c7_counterexample :
    EarlierActions.deleteInvoice none "ghost" =
      (.returned ⟨none, some "Invoice deleted successfully."⟩,
        [.write (.deleteRow "ghost"), .revalidate invoicesPath]) ∧
    (EarlierActions.deleteInvoice none "ghost").1 =
      (EarlierActions.deleteInvoice none "existing").1 ∧
    LaterActions.deleteInvoice none "ghost" =
      (.unitReturn, [.write (.deleteRow "ghost"), .revalidate invoicesPath]) ∧
    (applyEvents emptyStore (EarlierActions.deleteInvoice none "ghost").2).byId
      "ghost" = none := by
  refine ⟨rfl, rfl, rfl, rfl⟩

/-- C7 (amended): deleting an identifier that is not in the store resolves
exactly as every successful delete does — the earlier variant returns its
success message, the later variant returns undefined, cache invalidation
fires — and the store is left unchanged; neither variant produces any
Not-Found outcome (the spec itself records this as an open question). -/
theorem c7_delete_missing_is_noop_success (st : Store) (id : String)
    (h : st.byId id = none) :
    EarlierActions.deleteInvoice none id =
      (.returned ⟨none, some "Invoice deleted successfully."⟩,
        [.write (.deleteRow id), .revalidate invoicesPath]) ∧
    LaterActions.deleteInvoice none id =
      (.unitReturn, [.write (.deleteRow id), .revalidate invoicesPath]) ∧
    (applyEvents st (EarlierActions.deleteInvoice none id).2).byId = st.byId ∧
    (applyEvents st (EarlierActions.deleteInvoice none id).2).inserted = st.inserted ∧
    (EarlierActions.deleteInvoice none id).1.isReturnedValue = true ∧
    (LaterActions.deleteInvoice none id).1.isReturnedValue = true := by
  refine ⟨rfl, rfl, ?_, rfl, rfl, rfl⟩
  funext k
  simp only [EarlierActions.deleteInvoice, applyEvents, applyWrite]
  by_cases hk : k = id
  · subst hk; simp [h]
  · simp [hk]

/-- C7 (witness): the amended theorem applied to the empty store and the
absent id `ghost`. -/
theorem c7_witness :
    EarlierActions.deleteInvoice none "ghost" =
      (.returned ⟨none, some "Invoice deleted successfully."⟩,
        [.write (.deleteRow "ghost"), .revalidate invoicesPath]) ∧
    LaterActions.deleteInvoice none "ghost" =
      (.unitReturn, [.write (.deleteRow "ghost"), .revalidate invoicesPath]) ∧
    (applyEvents emptyStore (EarlierActions.deleteInvoice none "ghost").2).byId =
      emptyStore.byId ∧
    (applyEvents emptyStore (EarlierActions.deleteInvoice none "ghost").2).inserted =
      emptyStore.inserted ∧
    (EarlierActions.deleteInvoice none "ghost").1.isReturnedValue = true ∧
    (LaterActions.deleteInvoice none "ghost").1.isReturnedValue = true :=
  c7_delete_missing_is_noop_success emptyStore "ghost" rfl

/-- The value of a double with a negative exponent, as a quotient. -/
theorem toRat_neg_exp (m : ℤ) (k : ℕ) :
    Double.toRat ⟨m, -(k : ℤ)⟩ = (m : ℚ) / 2 ^ k := by
  unfold Double.toRat
  rw [zpow_neg, zpow_natCast]
  ring

/-- The executable integer test on the representation agrees with the
mathematical statement about the denoted value. -/
theorem isIntegerValued_iff (d : Double) :
    d.isIntegerValued = true ↔ ∃ n : ℤ, d.toRat = (n : ℚ) := by
  unfold Double.isIntegerValued Double.toRat
  by_cases he : 0 ≤ d.e
  · simp only [he, if_true, true_iff]
    refine ⟨d.m * 2 ^ d.e.toNat, ?_⟩
    rw [show d.e = (d.e.toNat : ℤ) from (Int.toNat_of_nonneg he).symm, zpow_natCast]
    push_cast [Int.toNat_natCast]
    ring
  · have h2 : ((2 : ℚ) ^ (-d.e).toNat) ≠ 0 := by positivity
    simp only [he, if_false, decide_eq_true_eq]
    constructor
    · intro hdvd
      obtain ⟨t, ht⟩ := Int.dvd_of_emod_eq_zero hdvd
      refine ⟨t, ?_⟩
      rw [show d.e = -(((-d.e).toNat : ℕ) : ℤ) by omega, zpow_neg, zpow_natCast, ht]
      push_cast
      field_simp
    · rintro ⟨n, hn⟩
      rw [show d.e = -(((-d.e).toNat : ℕ) : ℤ) by omega, zpow_neg, zpow_natCast] at hn
      have hm : (d.m : ℚ) = n * 2 ^ (-d.e).toNat := by
        field_simp at hn
        linarith
      have hmz : d.m = n * 2 ^ (-d.e).toNat := by exact_mod_cast hm
      rw [hmz]
      exact Int.mul_emod_left n _

/-- C6: on every successful create the stored date field is the calendar
date `YYYY-MM-DD` taken from the creation-time clock — ten characters, no
time-of-day or timezone component, unchanged under any change of the
time-of-day components; on update no date is regenerated: the UPDATE writes
only the three validated columns of the row identified by the out-of-band
id, preserving that row's stored date and every other row. -/
theorem c6_date_stamp (now : Clock) (f : FormData) (v : Validated) (id : String)
    (st : Store) (r : Row) (_hyr : now.year ≤ 9999)
    (hv : LaterActions.safeParse f = .ok v) :
    isYYYYMMDD (splitTHead (toISOString now)) = true ∧
    (LaterActions.createInvoice none now f).2 =
      [.write (.insertRow ⟨v.customerId, jsMul v.amount (Double.ofNat 100), v.status,
        splitTHead (toISOString now)⟩), .revalidate invoicesPath, .navigate invoicesPath] ∧
    (∀ c2 : Clock, c2.year = now.year → c2.month = now.month → c2.day = now.day →
      splitTHead (toISOString c2) = splitTHead (toISOString now)) ∧
    (LaterActions.updateInvoice none id f).2 =
      [.write (.updateRow id v.customerId (jsMul v.amount (Double.ofNat 100)) v.status),
        .revalidate invoicesPath, .navigate invoicesPath] ∧
    (st.byId id = some r →
      (applyEvents st (LaterActions.updateInvoice none id f).2).byId id =
        some ⟨v.customerId, jsMul v.amount (Double.ofNat 100), v.status, r.date⟩) ∧
    (∀ k, k ≠ id →
      (applyEvents st (LaterActions.updateInvoice none id f).2).byId k = st.byId k) ∧
    (applyEvents st (LaterActions.updateInvoice none id f).2).inserted = st.inserted := by
  have hev : (LaterActions.updateInvoice none id f).2 =
      [.write (.updateRow id v.customerId (jsMul v.amount (Double.ofNat 100)) v.status),
        .revalidate invoicesPath, .navigate invoicesPath] := by
    simp [LaterActions.updateInvoice, hv]
  refine ⟨isYYYYMMDD_stamp now, ?_, ?_, hev, ?_, ?_, ?_⟩
  · simp [LaterActions.createInvoice, hv]
  · intro c2 h1 h2 h3
    rw [splitTHead_toISOString, splitTHead_toISOString, h1, h2, h3]
  · intro hr
    rw [hev]
    simp [applyEvents, applyWrite, hr]
  · intro k hk
    rw [hev]
    simp [applyEvents, applyWrite, hk]
  · rw [hev]
    simp [applyEvents, applyWrite]

/-- C6 (witness): the theorem applied at the concrete clock, the Scenario C
submission, and a one-row store. -/
theorem c6_witness :
    isYYYYMMDD (splitTHead (toISOString clock0)) = true ∧
    (LaterActions.createInvoice none clock0 f4999).2 =
      [.write (.insertRow ⟨"c1",
        jsMul (Double.mk 7035467042882847 (-47)) (Double.ofNat 100), "paid",
        splitTHead (toISOString clock0)⟩),
        .revalidate invoicesPath, .navigate invoicesPath] ∧
    ((applyEvents ⟨fun k => if k = "a1" then some ⟨"c9", Double.zero, "pending", "2020-05-05"⟩ else none, []⟩
        (LaterActions.updateInvoice none "a1" f4999).2).byId "a1" =
      some ⟨"c1", jsMul (Double.mk 7035467042882847 (-47)) (Double.ofNat 100), "paid",
        "2020-05-05"⟩) := by
  have h := c6_date_stamp clock0 f4999 ⟨"c1", ⟨7035467042882847, -47⟩, "paid"⟩ "a1"
    ⟨fun k => if k = "a1" then some ⟨"c9", Double.zero, "pending", "2020-05-05"⟩ else none, []⟩
    ⟨"c9", Double.zero, "pending", "2020-05-05"⟩ (by decide) (by decide)
  exact ⟨h.1, h.2.1, h.2.2.2.2.1 rfl⟩

/-- C2 (counterexample).  The claim asserts the transformer yields an
integer equal to the amount times 100 truncated toward zero, for every
amount with at most two fractional digits.  For the valid amount `1.15`
the code computes `amount * 100` in binary64 with no truncation: the
stored value is the double 114.99999999999999 — not an integer at all, and
in particular neither 115 (the exact product) nor 114 (the truncated
float product). -/
theorem c2_counterexample :
    LaterActions.createInvoice none clock0 f115 =
      (.navigated invoicesPath,
        [.write (.insertRow ⟨"c1", d11499, "paid", "2026-01-02"⟩),
          .revalidate invoicesPath, .navigate invoicesPath]) ∧
    Double.isIntegerValued d11499 = false ∧
    Double.toRat d11499 ≠ 115 ∧
    Double.toRat d11499 ≠ 114 := by
  refine ⟨by decide, by decide, ?_, ?_⟩ <;>
    · rw [show d11499 = ⟨8092405580431359, -(46 : ℕ)⟩ from rfl, toRat_neg_exp]
      norm_num

/-- C2 (amended): the transformer computes `amountInCents = amount * 100`
in binary64 arithmetic with no truncation step, so the stored value is the
correctly rounded product, which need not be an integer; for the spec's
Scenario C input `49.99` the rounded product happens to be exactly the
integer 4999, which is what the create path stores. -/
theorem c2_scenario_c_stores_4999 :
    LaterActions.createInvoice none clock0 f4999 =
      (.navigated invoicesPath,
        [.write (.insertRow ⟨"c1", d4999, "paid", "2026-01-02"⟩),
          .revalidate invoicesPath, .navigate invoicesPath]) ∧
    Double.toRat d4999 = 4999 ∧
    Double.isIntegerValued d4999 = true := by
  refine ⟨by decide, ?_, by decide⟩
  rw [show d4999 = ⟨5496458627252224, -(40 : ℕ)⟩ from rfl, toRat_neg_exp]
  norm_num

end Invoices
